import Mathlib

set_option linter.unusedVariables false
set_option linter.unnecessarySeqFocus false

/-! Shallow embedding of src/peer_main/main.py, the training orchestration
entry point of the PEER mixture-of-experts language model repository. Pure
orchestration state (hyperparameter coercion, sampler and loader construction,
the epoch loop with best-checkpoint tracking) is translated directly from the
source; external collaborators (torch.distributed, the GPT2 tokenizer,
peer.dataset, peer.model, peer.trainer, matplotlib) are opaque services whose
calls and filesystem effects are recorded as events in an execution trace.
Losses, which are Python floats in the source, are modelled as exact
rationals, and the initial best validation loss float(inf) as the top
element of WithTop. -/

deriving instance DecidableEq for Except

/-- Python exception values raised by the orchestration layer or by its
collaborators. -/
inductive PyError where
  | typeError (msg : String) : PyError
  | valueError (msg : String) : PyError
  | exception (msg : String) : PyError
deriving DecidableEq

/-- Characters of a Python string with leading and trailing whitespace
removed, as int() and float() do before parsing their argument. -/
def pyStripChars (s : String) : List Char :=
  ((s.toList.dropWhile Char.isWhitespace).reverse.dropWhile Char.isWhitespace).reverse

/-- Numeric value of a list of decimal digit characters (48 is the code of
the zero digit). -/
def digitsVal (cs : List Char) : Nat :=
  cs.foldl (fun a c => 10 * a + (c.toNat - 48)) 0

/-- True when cs is a nonempty list of decimal digits. -/
def allDigits (cs : List Char) : Bool :=
  !cs.isEmpty && cs.all Char.isDigit

/-- Python int(x) for x an optional string: argparse stores option values as
plain strings and absent options as None. int(None) raises TypeError; a
string that is not an optionally signed decimal numeral raises ValueError. -/
def pyInt : Option String → Except PyError Int
  | none => Except.error (PyError.typeError "int() argument must be a string, a bytes-like object or a real number, not NoneType")
  | some s =>
    match pyStripChars s with
    | '-' :: cs =>
      if allDigits cs then Except.ok (-(digitsVal cs : Int)) else Except.error (PyError.valueError s)
    | '+' :: cs =>
      if allDigits cs then Except.ok ((digitsVal cs : Int)) else Except.error (PyError.valueError s)
    | cs =>
      if allDigits cs then Except.ok ((digitsVal cs : Int)) else Except.error (PyError.valueError s)

/-- Magnitude of an unsigned plain decimal float literal (integer part,
optional dot, fractional part), as an exact rational; none when the
characters do not form such a literal. -/
def pyFloatVal (cs : List Char) : Option ℚ :=
  match cs.splitOn '.' with
  | [a] => if allDigits a then some ((digitsVal a : ℚ)) else none
  | [a, b] =>
    if (!(a.isEmpty && b.isEmpty)) && a.all Char.isDigit && b.all Char.isDigit then
      some ((digitsVal a : ℚ) + (digitsVal b : ℚ) / (10 : ℚ) ^ b.length)
    else none
  | _ => none

/-- Python float(x) for x an optional string, restricted to optionally signed
plain decimal literals; the exponent, inf and nan spellings are not modelled
because the source only feeds float() the learning-rate option. float(None)
raises TypeError; a malformed string raises ValueError. The value is
represented exactly as a rational. -/
def pyFloat : Option String → Except PyError ℚ
  | none => Except.error (PyError.typeError "float() argument must be a string or a real number, not NoneType")
  | some s =>
    match pyStripChars s with
    | '-' :: cs =>
      match pyFloatVal cs with
      | some v => Except.ok (-v)
      | none => Except.error (PyError.valueError s)
    | '+' :: cs =>
      match pyFloatVal cs with
      | some v => Except.ok v
      | none => Except.error (PyError.valueError s)
    | cs =>
      match pyFloatVal cs with
      | some v => Except.ok v
      | none => Except.error (PyError.valueError s)

/-- Result of argparse parsing in the dunder-main block (source lines
106 to 118): one field per add_argument call. Every add_argument call in the
source passes only the option name, so each option is NOT required, has
default None and stores its value as an untyped string; hence every field is
an optional string. -/
structure ArgsNS where
  vocab_size : Option String
  dim : Option String
  num_layers : Option String
  num_heads : Option String
  num_experts : Option String
  top_k : Option String
  batch_size : Option String
  num_epochs : Option String
  learning_rate : Option String
  dataset : Option String
deriving DecidableEq

/-- Option strings registered by the ten add_argument calls. -/
def optionNames : List String :=
  ["--vocab-size", "--dim", "--num-layers", "--num-heads", "--num-experts",
   "--top-k", "--batch-size", "--num-epochs", "--learning-rate", "--dataset"]

/-- Value bound to an option by a command line, modelled as a list of
(option name, value) pairs; as in argparse, a repeated option keeps the last
occurrence and an absent option yields None. -/
def lastValue (argv : List (String × String)) (name : String) : Option String :=
  ((argv.filter (fun p => p.1 = name)).map Prod.snd).getLast?

/-- Namespace produced by a successful parse of a command line. -/
def argsOf (argv : List (String × String)) : ArgsNS :=
  { vocab_size := lastValue argv "--vocab-size"
    dim := lastValue argv "--dim"
    num_layers := lastValue argv "--num-layers"
    num_heads := lastValue argv "--num-heads"
    num_experts := lastValue argv "--num-experts"
    top_k := lastValue argv "--top-k"
    batch_size := lastValue argv "--batch-size"
    num_epochs := lastValue argv "--num-epochs"
    learning_rate := lastValue argv "--learning-rate"
    dataset := lastValue argv "--dataset" }

/-- parser.parse_args() for the parser built in the dunder-main block: since
no add_argument call marks its option as required or attaches a type, parsing
fails only on an option name that was never registered; otherwise it succeeds
and absent options are left as None. -/
def parse_args (argv : List (String × String)) : Except String ArgsNS :=
  if argv.all (fun p => optionNames.contains p.1) then Except.ok (argsOf argv)
  else Except.error "unrecognized arguments"

/-- Numeric hyperparameters produced by the coercions at the top of main
(source lines 33 to 42). -/
structure Hyper where
  vocab_size : Int
  dim : Int
  num_layers : Int
  num_heads : Int
  num_experts : Int
  top_k : Int
  batch_size : Int
  num_epochs : Int
  learning_rate : ℚ
  dataset : Option String
deriving DecidableEq

/-- Coercion of the parsed argument strings to numbers, in source order
(lines 33 to 42 of main): the first failing int() or float() call raises and
aborts main. The dataset argument is never coerced. -/
def coerceArgs (a : ArgsNS) : Except PyError Hyper := do
  let vocab_size ← pyInt a.vocab_size
  let dim ← pyInt a.dim
  let num_layers ← pyInt a.num_layers
  let num_heads ← pyInt a.num_heads
  let num_experts ← pyInt a.num_experts
  let top_k ← pyInt a.top_k
  let batch_size ← pyInt a.batch_size
  let num_epochs ← pyInt a.num_epochs
  let learning_rate ← pyFloat a.learning_rate
  pure { vocab_size := vocab_size, dim := dim, num_layers := num_layers,
         num_heads := num_heads, num_experts := num_experts, top_k := top_k,
         batch_size := batch_size, num_epochs := num_epochs,
         learning_rate := learning_rate, dataset := a.dataset }

/-- PileDataset(dataset, tokenizer, split) from peer.dataset, kept opaque:
only its identity (dataset name and split) matters to the orchestration. -/
structure PileDatasetT where
  dataset : Option String
  split : String
deriving DecidableEq

/-- torch DistributedSampler state visible to the orchestration layer:
constructed as DistributedSampler(train_dataset) with the default shuffle
True, seed 0 and initial epoch 0; set_epoch mutates the epoch field. -/
structure DistributedSamplerT where
  dataset : PileDatasetT
  shuffle : Bool
  seed : Nat
  epoch : Nat
deriving DecidableEq

/-- DistributedSampler(train_dataset) with its constructor defaults. -/
def DistributedSamplerNew (d : PileDatasetT) : DistributedSamplerT :=
  { dataset := d, shuffle := true, seed := 0, epoch := 0 }

/-- train_sampler.set_epoch(epoch), which re-seeds the shuffle of the sampler
for the coming epoch. -/
def set_epoch (s : DistributedSamplerT) (e : Nat) : DistributedSamplerT :=
  { s with epoch := e }

/-- torch DataLoader configuration visible to the orchestration layer. The
keyword arguments not passed in the source keep their defaults; in particular
shuffle defaults to False. -/
structure DataLoaderT where
  dataset : PileDatasetT
  batch_size : Int
  sampler : Option DistributedSamplerT
  shuffle : Bool
deriving DecidableEq

/-- Datasets, sampler and loaders built by main (source lines 63 to 70):
train and validation PileDataset splits, a DistributedSampler over the train
split, DataLoader(train_dataset, batch_size, sampler=train_sampler) and
DataLoader(val_dataset, batch_size, shuffle=False). -/
structure Resources where
  train_dataset : PileDatasetT
  val_dataset : PileDatasetT
  train_sampler : DistributedSamplerT
  train_loader : DataLoaderT
  val_loader : DataLoaderT
deriving DecidableEq

/-- Construction of the datasets, sampler and loaders, mirroring source
lines 63 to 70. -/
def build_resources (h : Hyper) : Resources :=
  let train_dataset : PileDatasetT := { dataset := h.dataset, split := "train" }
  let val_dataset : PileDatasetT := { dataset := h.dataset, split := "validation" }
  let train_sampler := DistributedSamplerNew train_dataset
  { train_dataset := train_dataset
    val_dataset := val_dataset
    train_sampler := train_sampler
    train_loader :=
      { dataset := train_dataset, batch_size := h.batch_size,
        sampler := some train_sampler, shuffle := false }
    val_loader :=
      { dataset := val_dataset, batch_size := h.batch_size,
        sampler := none, shuffle := false } }

/-- Observable actions performed by main, in program order: collective setup
and teardown, progress prints, filesystem writes, and the calls into the
train and validate collaborators. The train_call event records the epoch of
the loop iteration and the epoch stored in the train sampler at the moment
train is invoked. -/
inductive Event where
  | init_process_group : Event
  | set_device (local_rank : Nat) : Event
  | print_args : Event
  | print_loading_tokenizer : Event
  | print_finished_tokenizer : Event
  | print_init_model : Event
  | print_finished_model : Event
  | print_loading_datasets : Event
  | print_finished_datasets : Event
  | print_num_params : Event
  | makedirs (dir : String) : Event
  | set_epoch_call (epoch : Nat) : Event
  | print_epoch_training (epoch : Nat) : Event
  | train_call (epoch : Nat) (samplerEpoch : Nat) : Event
  | print_epoch_validation (epoch : Nat) : Event
  | validate_call (epoch : Nat) : Event
  | print_epoch_summary (epoch : Nat) : Event
  | savefig (path : String) : Event
  | torch_save (path : String) : Event
  | destroy_process_group : Event
deriving DecidableEq

/-- os.path.join for the two-argument form used by plot_losses. -/
def ospath_join (a b : String) : String := a ++ "/" ++ b

/-- plot_losses (source lines 14 to 23): renders the two per-batch loss
curves and saves the figure; its only observable effect at this layer is the
written file, at os.path.join(save_dir, the epoch-numbered png name). -/
def plot_losses (train_losses val_losses : List ℚ) (epoch : Nat) (save_dir : String) :
    List Event :=
  [Event.savefig (ospath_join save_dir ("epoch_" ++ toString (epoch + 1) ++ "_losses.png"))]

/-- Path of the loss plot written for the loop iteration with 0-based index
epoch, as produced by plot_losses with save_dir plots. -/
def plotPath (epoch : Nat) : String :=
  ospath_join "plots" ("epoch_" ++ toString (epoch + 1) ++ "_losses.png")

/-- Outcomes of the external collaborators peer.trainer.train and
peer.trainer.validate at each epoch-indexed call of the loop: train returns
(epoch train loss, per-batch train losses), validate returns (validation
loss, validation perplexity, per-batch validation losses), and either call
may raise. -/
structure Collaborators where
  train : Nat → Except PyError (ℚ × List ℚ)
  validate : Nat → Except PyError (ℚ × ℚ × List ℚ)

/-- Body of one iteration of the training and validation loop of main
(source lines 81 to 97): re-seed the train sampler with the current epoch,
call train on every process, and on the coordinator (local rank 0) only,
call validate, print the summary, plot the losses, and save the model to the
best-checkpoint file when the validation loss is below the best seen so far.
Returns the events performed and either the raised error or the updated
(sampler, best validation loss) state. -/
def epochChunk (c : Collaborators) (local_rank : Nat) (epoch : Nat)
    (sampler : DistributedSamplerT) (best : WithTop ℚ) :
    List Event × Except PyError (DistributedSamplerT × WithTop ℚ) :=
  let sampler1 := set_epoch sampler epoch
  let evs := Event.set_epoch_call epoch ::
    ((if local_rank = 0 then [Event.print_epoch_training epoch] else []) ++
      [Event.train_call epoch sampler1.epoch])
  match c.train epoch with
  | Except.error err => (evs, Except.error err)
  | Except.ok (train_loss, train_batch_losses) =>
    if local_rank = 0 then
      let evs2 := evs ++ [Event.print_epoch_validation epoch, Event.validate_call epoch]
      match c.validate epoch with
      | Except.error err => (evs2, Except.error err)
      | Except.ok (val_loss, val_perplexity, val_batch_losses) =>
        let evs3 := evs2 ++ [Event.print_epoch_summary epoch] ++
          plot_losses train_batch_losses val_batch_losses epoch "plots"
        if ((val_loss : WithTop ℚ) < best) then
          (evs3 ++ [Event.torch_save "best_peer_language_model.pth"],
            Except.ok (sampler1, (val_loss : WithTop ℚ)))
        else
          (evs3, Except.ok (sampler1, best))
    else
      (evs, Except.ok (sampler1, best))

/-- The epoch loop of main over the remaining list of epoch indices,
accumulating the performed events; an exception raised inside an iteration
keeps the events performed so far and stops the loop. -/
def epochLoop (c : Collaborators) (local_rank : Nat) :
    List Nat → DistributedSamplerT → WithTop ℚ →
    List Event × Except PyError (DistributedSamplerT × WithTop ℚ)
  | [], sampler, best => ([], Except.ok (sampler, best))
  | epoch :: rest, sampler, best =>
    match epochChunk c local_rank epoch sampler best with
    | (evs, Except.error err) => (evs, Except.error err)
    | (evs, Except.ok st) =>
      let r := epochLoop c local_rank rest st.1 st.2
      (evs ++ r.1, r.2)

/-- Progress prints issued by every process between the coercions and the
loop (source lines 44 to 65). -/
def startupEvents : List Event :=
  [Event.print_args, Event.print_loading_tokenizer, Event.print_finished_tokenizer,
   Event.print_init_model, Event.print_finished_model, Event.print_loading_datasets,
   Event.print_finished_datasets]

/-- Events performed by main before the epoch loop on a process of the given
local rank, once the coercions have succeeded: process-group setup, device
binding, the startup prints, and on the coordinator only the parameter-count
print and the creation of the plots directory (source lines 27 to 77). -/
def prologueEvents (local_rank : Nat) : List Event :=
  Event.init_process_group :: Event.set_device local_rank :: startupEvents ++
    (if local_rank = 0 then [Event.print_num_params, Event.makedirs "plots"] else [])

/-- Remainder of main after the hyperparameter coercions succeeded: build
the resources, run the epoch loop over range(num_epochs) starting from a best
validation loss of float(inf), then on the coordinator only save the final
checkpoint, and destroy the process group (source lines 44 to 104). A Python
range over a nonpositive count is empty, hence toNat. -/
def mainAfterCoerce (c : Collaborators) (local_rank : Nat) (h : Hyper) :
    List Event × Option PyError :=
  match epochLoop c local_rank (List.range h.num_epochs.toNat)
      (build_resources h).train_sampler ⊤ with
  | (evs, Except.error err) => (prologueEvents local_rank ++ evs, some err)
  | (evs, Except.ok st) =>
    (prologueEvents local_rank ++ evs ++
      (if local_rank = 0 then [Event.torch_save "final_peer_language_model.pth"] else []) ++
      [Event.destroy_process_group], none)

/-- main(args) (source lines 26 to 104) on the process with the given local
rank, given the outcomes of the collaborator calls: initialize the process
group and bind the device, coerce the argument strings (an exception here
propagates with only those two actions performed), then run the rest.
Returns the trace of performed events and the uncaught exception, if any. -/
def peer_main (c : Collaborators) (local_rank : Nat) (args : ArgsNS) :
    List Event × Option PyError :=
  match coerceArgs args with
  | Except.error err =>
    ([Event.init_process_group, Event.set_device local_rank], some err)
  | Except.ok h => mainAfterCoerce c local_rank h

/-- Collaborators whose calls never raise, given by the per-epoch values the
calls return; every exception-free run of the loop factors through this. -/
def totalCollab (ft : Nat → ℚ × List ℚ) (fv : Nat → ℚ × ℚ × List ℚ) : Collaborators :=
  { train := fun e => Except.ok (ft e)
    validate := fun e => Except.ok (fv e) }

/-- Validation loss returned by the validate collaborator at epoch e. -/
def valLoss (fv : Nat → ℚ × ℚ × List ℚ) (e : Nat) : ℚ := (fv e).1

/-- Update of the tracked best validation loss by one epoch result,
mirroring source lines 95 and 96. -/
def bestUpdate (b : WithTop ℚ) (v : ℚ) : WithTop ℚ :=
  if ((v : WithTop ℚ) < b) then (v : WithTop ℚ) else b

/-- Tracked best validation loss at entry of the loop iteration with index
n, on an exception-free coordinator run with validation losses given by fv:
float(inf) before the first iteration, then updated each epoch. -/
def bestSeq (fv : Nat → ℚ × ℚ × List ℚ) : Nat → WithTop ℚ
  | 0 => ⊤
  | n + 1 => bestUpdate (bestSeq fv n) (valLoss fv n)

/-- Events of one coordinator loop iteration on an exception-free run:
sampler re-seed, the two progress prints around the collaborator calls, the
summary print, the plot file write, and the best-checkpoint write exactly
when the validation loss is below the incoming best. -/
def coordChunkEvents (fv : Nat → ℚ × ℚ × List ℚ) (e : Nat) (b : WithTop ℚ) : List Event :=
  [Event.set_epoch_call e, Event.print_epoch_training e, Event.train_call e e,
   Event.print_epoch_validation e, Event.validate_call e, Event.print_epoch_summary e,
   Event.savefig (plotPath e)] ++
    (if ((valLoss fv e : WithTop ℚ) < b) then
      [Event.torch_save "best_peer_language_model.pth"] else [])

/-- Events of the coordinator loop over a list of epoch indices on an
exception-free run, starting from the given best validation loss. -/
def coordLoopEvents (fv : Nat → ℚ × ℚ × List ℚ) : List Nat → WithTop ℚ → List Event
  | [], _ => []
  | e :: es, b => coordChunkEvents fv e b ++ coordLoopEvents fv es (bestUpdate b (valLoss fv e))

/-- Events that only the coordinator process may perform: validation,
epoch reporting (logging and plotting) and every filesystem write (the plots
directory, plot files, and the two checkpoint files). -/
def coordOnly : Event → Bool
  | Event.print_num_params => true
  | Event.makedirs _ => true
  | Event.print_epoch_training _ => true
  | Event.print_epoch_validation _ => true
  | Event.validate_call _ => true
  | Event.print_epoch_summary _ => true
  | Event.savefig _ => true
  | Event.torch_save _ => true
  | _ => false

/-- Path written by a savefig event, if any. -/
def savefigPath : Event → Option String
  | Event.savefig p => some p
  | _ => none

/-- Paths of the plot files written in a trace, in order. -/
def savefigPaths (l : List Event) : List String := l.filterMap savefigPath

/-- Collaborator outcome functions returning constant zero losses, for
concrete evaluation. -/
def ftZero : Nat → ℚ × List ℚ := fun _ => (0, [])

/-- Constant validate outcomes, for concrete evaluation. -/
def fvZero : Nat → ℚ × ℚ × List ℚ := fun _ => (0, 0, [])

/-- Validate outcomes with strictly decreasing validation loss. -/
def fvDec : Nat → ℚ × ℚ × List ℚ := fun e => (1 / ((e : ℚ) + 1), 1, [])

/-- Validate outcomes whose loss improves at epoch 0, worsens at epoch 1 and
improves again at epoch 2. -/
def fvMix : Nat → ℚ × ℚ × List ℚ
  | 0 => (5, 1, [])
  | 1 => (7, 1, [])
  | _ => (3, 1, [])

/-- A fully populated, well-formed command-line namespace with two epochs. -/
def args10 : ArgsNS :=
  { vocab_size := some "50257", dim := some "256", num_layers := some "4",
    num_heads := some "4", num_experts := some "1024", top_k := some "16",
    batch_size := some "8", num_epochs := some "2",
    learning_rate := some "1", dataset := some "pile" }

/-- The hyperparameters that args10 coerces to. -/
def hyp10 : Hyper :=
  { vocab_size := 50257, dim := 256, num_layers := 4, num_heads := 4,
    num_experts := 1024, top_k := 16, batch_size := 8, num_epochs := 2,
    learning_rate := 1, dataset := some "pile" }

/-- args10 with zero epochs. -/
def argsZeroEpochs : ArgsNS := { args10 with num_epochs := some "0" }

/-- The hyperparameters that argsZeroEpochs coerces to. -/
def hypZero : Hyper := { hyp10 with num_epochs := 0 }

/-- The namespace argparse produces when no argument at all is passed. -/
def argsAllNone : ArgsNS :=
  { vocab_size := none, dim := none, num_layers := none, num_heads := none,
    num_experts := none, top_k := none, batch_size := none, num_epochs := none,
    learning_rate := none, dataset := none }

/-- Collaborators whose train call raises at every epoch after the first. -/
def cTrainFail : Collaborators :=
  { train := fun e => if e = 0 then Except.ok (1, [1]) else Except.error (PyError.exception "CUDA out of memory")
    validate := fun e => Except.ok (1, 1, []) }

/-- Collaborators whose validate call raises at every epoch after the
first. -/
def cValFail : Collaborators :=
  { train := fun e => Except.ok (1, [1])
    validate := fun e => if e = 0 then Except.ok (1, 1, []) else Except.error (PyError.exception "validate failed") }

lemma peer_main_coerce_ok (c : Collaborators) (lr : Nat) (args : ArgsNS) (hyp : Hyper)
    (hc : coerceArgs args = Except.ok hyp) :
    peer_main c lr args = mainAfterCoerce c lr hyp := by
  simp [peer_main, hc]

lemma peer_main_coerce_error (c : Collaborators) (lr : Nat) (args : ArgsNS) (err : PyError)
    (hc : coerceArgs args = Except.error err) :
    peer_main c lr args =
      ([Event.init_process_group, Event.set_device lr], some err) := by
  simp [peer_main, hc]

lemma plot_losses_plots (tl vl : List ℚ) (e : Nat) :
    plot_losses tl vl e "plots" = [Event.savefig (plotPath e)] := rfl

lemma epochChunk_coord (ft : Nat → ℚ × List ℚ) (fv : Nat → ℚ × ℚ × List ℚ)
    (e : Nat) (s : DistributedSamplerT) (b : WithTop ℚ) :
    epochChunk (totalCollab ft fv) 0 e s b =
      (coordChunkEvents fv e b,
        Except.ok (set_epoch s e, bestUpdate b (valLoss fv e))) := by
  by_cases hlt : (((fv e).1 : WithTop ℚ) < b) <;>
    simp [epochChunk, totalCollab, coordChunkEvents, bestUpdate, valLoss,
      plot_losses, plotPath, set_epoch, hlt]

lemma epochLoop_coord (ft : Nat → ℚ × List ℚ) (fv : Nat → ℚ × ℚ × List ℚ)
    (es : List Nat) :
    ∀ (s : DistributedSamplerT) (b : WithTop ℚ),
      epochLoop (totalCollab ft fv) 0 es s b =
        (coordLoopEvents fv es b,
          Except.ok (es.foldl set_epoch s,
            es.foldl (fun x e => bestUpdate x (valLoss fv e)) b)) := by
  induction es with
  | nil => intro s b; rfl
  | cons e es ih =>
    intro s b
    simp only [epochLoop, epochChunk_coord, coordLoopEvents, List.foldl_cons, ih]

lemma bestUpdate_eq_min (b : WithTop ℚ) (v : ℚ) :
    bestUpdate b v = min b (v : WithTop ℚ) := by
  unfold bestUpdate
  split
  · exact (min_eq_right (le_of_lt (by assumption))).symm
  · exact (min_eq_left (not_lt.mp (by assumption))).symm

lemma foldl_bestUpdate_range (fv : Nat → ℚ × ℚ × List ℚ) (n : Nat) :
    (List.range n).foldl (fun x e => bestUpdate x (valLoss fv e)) ⊤ = bestSeq fv n := by
  induction n with
  | zero => rfl
  | succ n ih => rw [List.range_succ, List.foldl_append, ih]; rfl

lemma lt_bestSeq_iff (fv : Nat → ℚ × ℚ × List ℚ) (x : ℚ) (n : Nat) :
    ((x : WithTop ℚ) < bestSeq fv n) ↔ ∀ i < n, x < valLoss fv i := by
  induction n with
  | zero =>
    simp only [bestSeq]
    simp [WithTop.coe_lt_top]
  | succ n ih =>
    rw [show bestSeq fv (n + 1) = bestUpdate (bestSeq fv n) (valLoss fv n) from rfl,
      bestUpdate_eq_min, lt_min_iff, ih]
    constructor
    · rintro ⟨h1, h2⟩ i hi
      rcases Nat.lt_succ_iff_lt_or_eq.mp hi with h | h
      · exact h1 i h
      · subst h; exact_mod_cast h2
    · intro h
      refine ⟨fun i hi => h i (Nat.lt_succ_of_lt hi), ?_⟩
      exact_mod_cast h n (Nat.lt_succ_self n)

lemma epochChunk_mem (c : Collaborators) (lr e : Nat) (s : DistributedSamplerT)
    (b : WithTop ℚ) (ev : Event) (hev : ev ∈ (epochChunk c lr e s b).1) :
    ev = Event.set_epoch_call e ∨ ev = Event.print_epoch_training e ∨
    ev = Event.train_call e e ∨ ev = Event.print_epoch_validation e ∨
    ev = Event.validate_call e ∨ ev = Event.print_epoch_summary e ∨
    ev = Event.savefig (plotPath e) ∨
    ev = Event.torch_save "best_peer_language_model.pth" := by
  unfold epochChunk at hev
  rcases ht : c.train e with err | tv <;> rw [ht] at hev
  · by_cases hlr : lr = 0 <;> simp [hlr, set_epoch] at hev <;> tauto
  · by_cases hlr : lr = 0
    · subst hlr
      rcases hv : c.validate e with err | vv <;> rw [hv] at hev <;>
        simp only [plot_losses, plotPath, set_epoch, reduceIte] at hev
      · simp at hev; tauto
      · revert hev; split <;> intro hev <;> simp at hev <;> tauto
    · simp [hlr, set_epoch] at hev; tauto

lemma epochLoop_mem (c : Collaborators) (lr : Nat) (es : List Nat) :
    ∀ (s : DistributedSamplerT) (b : WithTop ℚ) (ev : Event),
      ev ∈ (epochLoop c lr es s b).1 →
      ∃ e ∈ es, ev ∈ (epochChunk c lr e s b).1 ∨
        (ev = Event.set_epoch_call e ∨ ev = Event.print_epoch_training e ∨
         ev = Event.train_call e e ∨ ev = Event.print_epoch_validation e ∨
         ev = Event.validate_call e ∨ ev = Event.print_epoch_summary e ∨
         ev = Event.savefig (plotPath e) ∨
         ev = Event.torch_save "best_peer_language_model.pth") := by
  induction es with
  | nil => intro s b ev hev; simp [epochLoop] at hev
  | cons e es ih =>
    intro s b ev hev
    rcases hch : epochChunk c lr e s b with ⟨evs, out⟩
    rcases out with err | st <;> rw [epochLoop, hch] at hev
    · refine ⟨e, by simp, Or.inr ?_⟩
      have : ev ∈ (epochChunk c lr e s b).1 := by rw [hch]; exact hev
      exact epochChunk_mem c lr e s b ev this
    · simp only [List.mem_append] at hev
      rcases hev with hev | hev
      · refine ⟨e, by simp, Or.inr ?_⟩
        have : ev ∈ (epochChunk c lr e s b).1 := by rw [hch]; exact hev
        exact epochChunk_mem c lr e s b ev this
      · obtain ⟨e1, he1, h⟩ := ih st.1 st.2 ev hev
        rcases h with h | h
        · exact ⟨e1, by simp [he1], Or.inr (epochChunk_mem c lr e1 st.1 st.2 ev h)⟩
        · exact ⟨e1, by simp [he1], Or.inr h⟩

lemma epochLoop_mem_cases (c : Collaborators) (lr : Nat) (es : List Nat)
    (s : DistributedSamplerT) (b : WithTop ℚ) (ev : Event)
    (hev : ev ∈ (epochLoop c lr es s b).1) :
    ∃ e ∈ es,
      ev = Event.set_epoch_call e ∨ ev = Event.print_epoch_training e ∨
      ev = Event.train_call e e ∨ ev = Event.print_epoch_validation e ∨
      ev = Event.validate_call e ∨ ev = Event.print_epoch_summary e ∨
      ev = Event.savefig (plotPath e) ∨
      ev = Event.torch_save "best_peer_language_model.pth" := by
  obtain ⟨e, he, h⟩ := epochLoop_mem c lr es s b ev hev
  rcases h with h | h
  · exact ⟨e, he, epochChunk_mem c lr e s b ev h⟩
  · exact ⟨e, he, h⟩

lemma epochLoop_no_destroy (c : Collaborators) (lr : Nat) (es : List Nat)
    (s : DistributedSamplerT) (b : WithTop ℚ) :
    Event.destroy_process_group ∉ (epochLoop c lr es s b).1 := by
  intro hev
  obtain ⟨e, he, h⟩ := epochLoop_mem_cases c lr es s b _ hev
  simp at h

lemma epochLoop_no_final (c : Collaborators) (lr : Nat) (es : List Nat)
    (s : DistributedSamplerT) (b : WithTop ℚ) :
    Event.torch_save "final_peer_language_model.pth" ∉ (epochLoop c lr es s b).1 := by
  intro hev
  obtain ⟨e, he, h⟩ := epochLoop_mem_cases c lr es s b _ hev
  simp [plotPath, ospath_join] at h

lemma epochChunk_noncoord (c : Collaborators) (lr e : Nat) (s : DistributedSamplerT)
    (b : WithTop ℚ) (hlr : lr ≠ 0) :
    (epochChunk c lr e s b).1 = [Event.set_epoch_call e, Event.train_call e e] := by
  unfold epochChunk
  rcases ht : c.train e with err | tv
  all_goals simp [hlr, set_epoch]

lemma epochLoop_noncoord_mem (c : Collaborators) (lr : Nat) (hlr : lr ≠ 0) (es : List Nat) :
    ∀ (s : DistributedSamplerT) (b : WithTop ℚ) (ev : Event),
      ev ∈ (epochLoop c lr es s b).1 →
      ∃ e ∈ es, ev = Event.set_epoch_call e ∨ ev = Event.train_call e e := by
  induction es with
  | nil => intro s b ev hev; simp [epochLoop] at hev
  | cons e es ih =>
    intro s b ev hev
    rcases hch : epochChunk c lr e s b with ⟨evs, out⟩
    have hevs : evs = [Event.set_epoch_call e, Event.train_call e e] := by
      have := epochChunk_noncoord c lr e s b hlr
      rw [hch] at this
      exact this
    rcases out with err | st <;> rw [epochLoop, hch] at hev
    · subst hevs
      simp at hev
      exact ⟨e, by simp, hev⟩
    · simp only [List.mem_append] at hev
      rcases hev with hev | hev
      · subst hevs
        simp at hev
        exact ⟨e, by simp, hev⟩
      · obtain ⟨e1, he1, h⟩ := ih st.1 st.2 ev hev
        exact ⟨e1, by simp [he1], h⟩

lemma epochChunk_head_tail (c : Collaborators) (lr e : Nat) (s : DistributedSamplerT)
    (b : WithTop ℚ) :
    (epochChunk c lr e s b).1.head? = some (Event.set_epoch_call e) ∧
    Event.train_call e e ∈ (epochChunk c lr e s b).1.tail := by
  unfold epochChunk
  rcases ht : c.train e with err | tv
  · simp [set_epoch]
  · by_cases hlr : lr = 0
    · subst hlr
      rcases hv : c.validate e with err | vv <;>
        simp [set_epoch, plot_losses] <;> split <;> simp
    · simp [hlr, set_epoch]

lemma epochChunk_ok (c : Collaborators) (lr e : Nat) (s : DistributedSamplerT)
    (b : WithTop ℚ) (ht : ∃ x, c.train e = Except.ok x)
    (hv : lr = 0 → ∃ y, c.validate e = Except.ok y) :
    ∃ st, (epochChunk c lr e s b).2 = Except.ok st := by
  obtain ⟨⟨tl, tbl⟩, ht⟩ := ht
  by_cases hlr : lr = 0
  · subst hlr
    obtain ⟨⟨vl, vp, vbl⟩, hv⟩ := hv rfl
    simp only [epochChunk, ht, hv, reduceIte]
    split <;> exact ⟨_, rfl⟩
  · simp only [epochChunk, ht, if_neg hlr]
    exact ⟨_, rfl⟩

lemma epochChunk_train_error (c : Collaborators) (lr e : Nat) (err : PyError)
    (ht : c.train e = Except.error err) (s : DistributedSamplerT) (b : WithTop ℚ) :
    (epochChunk c lr e s b).2 = Except.error err := by
  unfold epochChunk
  rw [ht]

lemma epochChunk_validate_error (c : Collaborators) (e : Nat) (err : PyError)
    (x : ℚ × List ℚ) (ht : c.train e = Except.ok x)
    (hv : c.validate e = Except.error err) (s : DistributedSamplerT) (b : WithTop ℚ) :
    (epochChunk c 0 e s b).2 = Except.error err := by
  obtain ⟨tl, tbl⟩ := x
  unfold epochChunk
  rw [ht, hv]
  rfl

lemma epochLoop_error (c : Collaborators) (lr : Nat) (err : PyError) (es1 : List Nat) :
    ∀ (e : Nat) (es2 : List Nat) (s : DistributedSamplerT) (b : WithTop ℚ),
      (∀ i ∈ es1, (∃ x, c.train i = Except.ok x) ∧
        (lr = 0 → ∃ y, c.validate i = Except.ok y)) →
      (∀ s1 b1, (epochChunk c lr e s1 b1).2 = Except.error err) →
      (epochLoop c lr (es1 ++ e :: es2) s b).2 = Except.error err := by
  induction es1 with
  | nil =>
    intro e es2 s b hok hfail
    rcases hch : epochChunk c lr e s b with ⟨evs, out⟩
    have : out = Except.error err := by
      have := hfail s b
      rw [hch] at this
      exact this
    subst this
    rw [List.nil_append, epochLoop, hch]
  | cons a es1 ih =>
    intro e es2 s b hok hfail
    obtain ⟨hta, hva⟩ := hok a (by simp)
    obtain ⟨st, hst⟩ := epochChunk_ok c lr a s b hta hva
    rcases hch : epochChunk c lr a s b with ⟨evs, out⟩
    have : out = Except.ok st := by rw [hch] at hst; exact hst
    subst this
    rw [List.cons_append, epochLoop, hch]
    simp only []
    exact ih e es2 st.1 st.2 (fun i hi => hok i (by simp [hi])) hfail

lemma range_decomp (e N : Nat) (h : e < N) :
    List.range N = List.range e ++ e :: List.range' (e + 1) (N - e - 1) := by
  have h1 : List.range' 0 e 1 ++ List.range' (0 + 1 * e) (N - e) 1 = List.range' 0 (N - e + e) 1 :=
    List.range'_append 0 e (N - e) 1
  have h2 : N - e + e = N := by omega
  have h3 : N - e = (N - e - 1) + 1 := by omega
  rw [h2] at h1
  rw [List.range_eq_range', List.range_eq_range', ← h1, h3, List.range'_succ]
  simp only [Nat.zero_add, Nat.one_mul, Nat.add_sub_cancel]

lemma savefigPaths_append (l1 l2 : List Event) :
    savefigPaths (l1 ++ l2) = savefigPaths l1 ++ savefigPaths l2 :=
  List.filterMap_append l1 l2 savefigPath

lemma savefigPaths_coordChunk (fv : Nat → ℚ × ℚ × List ℚ) (e : Nat) (b : WithTop ℚ) :
    savefigPaths (coordChunkEvents fv e b) = [plotPath e] := by
  unfold coordChunkEvents
  split <;> simp [savefigPaths, savefigPath]

lemma savefigPaths_coordLoop (fv : Nat → ℚ × ℚ × List ℚ) (es : List Nat) :
    ∀ b : WithTop ℚ, savefigPaths (coordLoopEvents fv es b) = es.map plotPath := by
  induction es with
  | nil => intro b; rfl
  | cons e es ih =>
    intro b
    rw [coordLoopEvents, savefigPaths_append, savefigPaths_coordChunk, ih, List.map_cons]
    rfl

lemma savefigPaths_prologue (lr : Nat) : savefigPaths (prologueEvents lr) = [] := by
  unfold prologueEvents startupEvents
  split <;> simp [savefigPaths, savefigPath]

lemma countP_coordOnly_prologue (lr : Nat) (hlr : lr ≠ 0) :
    (prologueEvents lr).countP coordOnly = 0 := by
  unfold prologueEvents startupEvents
  rw [if_neg hlr]
  simp [coordOnly]

lemma destroy_not_mem_prologue (lr : Nat) :
    Event.destroy_process_group ∉ prologueEvents lr := by
  unfold prologueEvents startupEvents
  split <;> simp

lemma final_not_mem_prologue (lr : Nat) :
    Event.torch_save "final_peer_language_model.pth" ∉ prologueEvents lr := by
  unfold prologueEvents startupEvents
  split <;> simp

lemma train_call_not_mem_prologue (lr e se : Nat) :
    Event.train_call e se ∉ prologueEvents lr := by
  unfold prologueEvents startupEvents
  split <;> simp

/-- C7: the validation data loader is built without a distributed sampler
(the full validation set is replayed, not partitioned across processes) and
with shuffling disabled, whereas the train loader is built with the
process-partitioning distributed sampler over the train split. -/
theorem C7_loader_construction (h : Hyper) :
    (build_resources h).val_loader.sampler = none ∧
    (build_resources h).val_loader.shuffle = false ∧
    (build_resources h).val_loader.dataset = { dataset := h.dataset, split := "validation" } ∧
    (build_resources h).train_loader.sampler = some (build_resources h).train_sampler ∧
    (build_resources h).train_sampler =
      DistributedSamplerNew { dataset := h.dataset, split := "train" } := by
  refine ⟨rfl, rfl, rfl, rfl, rfl⟩

/-- C10: the coercion of the command-line argument strings to numeric types
happens inside main only after the distributed process group is initialized
and the device is bound: when coercion raises, the trace consists of exactly
the process-group setup and the device binding, and the error propagates out
of main. -/
theorem C10_coercion_after_rendezvous (c : Collaborators) (lr : Nat) (args : ArgsNS)
    (err : PyError) (hc : coerceArgs args = Except.error err) :
    peer_main c lr args =
      ([Event.init_process_group, Event.set_device lr], some err) :=
  peer_main_coerce_error c lr args err hc

/-- C10 witness: with every argument missing, the int() coercion of
vocab-size raises TypeError after the process group and device setup. -/
theorem C10_coercion_after_rendezvous_witness :
    coerceArgs argsAllNone = Except.error (PyError.typeError "int() argument must be a string, a bytes-like object or a real number, not NoneType") ∧
    peer_main (totalCollab ftZero fvZero) 0 argsAllNone =
      ([Event.init_process_group, Event.set_device 0],
        some (PyError.typeError "int() argument must be a string, a bytes-like object or a real number, not NoneType")) :=
  ⟨by decide, C10_coercion_after_rendezvous (totalCollab ftZero fvZero) 0 argsAllNone _ (by decide)⟩

/-- C3 counterexample: the claim that all ten command-line arguments are
required and that a missing or malformed numeric argument is a fatal failure
at argument-parsing time is false: parsing the empty command line succeeds
with every option None, parsing a malformed numeric option value succeeds as
well, and the failure only happens later, inside main, after the process
group is initialized and the device is bound. -/
theorem C3_counterexample :
    parse_args [] = Except.ok argsAllNone ∧
    parse_args [("--num-epochs", "abc")] =
      Except.ok { argsAllNone with num_epochs := some "abc" } ∧
    peer_main (totalCollab ftZero fvZero) 0 argsAllNone =
      ([Event.init_process_group, Event.set_device 0],
        some (PyError.typeError "int() argument must be a string, a bytes-like object or a real number, not NoneType")) := by
  refine ⟨by decide, by decide, by decide⟩

/-- C3 amended: none of the ten command-line options is required and none
carries a numeric type, so argument parsing succeeds on any command line
made of registered option names, leaving missing options as None; a missing
or malformed numeric argument is surfaced as a fatal failure only inside
main, at hyperparameter-coercion time, immediately after process-group
initialization and device binding and before any other work. -/
theorem C3_arguments_not_required (argv : List (String × String))
    (hargv : argv.all (fun p => optionNames.contains p.1) = true)
    (c : Collaborators) (lr : Nat) (args : ArgsNS) (err : PyError)
    (hc : coerceArgs args = Except.error err) :
    parse_args argv = Except.ok (argsOf argv) ∧
    peer_main c lr args =
      ([Event.init_process_group, Event.set_device lr], some err) := by
  constructor
  · unfold parse_args
    rw [if_pos hargv]
  · exact peer_main_coerce_error c lr args err hc

/-- C3 amended witness: the empty command line parses successfully, and an
all-None namespace aborts main at coercion time with both setup events
already performed. -/
theorem C3_arguments_not_required_witness :
    parse_args [] = Except.ok (argsOf []) ∧
    peer_main (totalCollab ftZero fvZero) 1 argsAllNone =
      ([Event.init_process_group, Event.set_device 1],
        some (PyError.typeError "int() argument must be a string, a bytes-like object or a real number, not NoneType")) :=
  C3_arguments_not_required [] (by decide) (totalCollab ftZero fvZero) 1 argsAllNone
    (PyError.typeError "int() argument must be a string, a bytes-like object or a real number, not NoneType")
    (by decide)

lemma mem_save_coordChunk (fv : Nat → ℚ × ℚ × List ℚ) (e : Nat) (b : WithTop ℚ) :
    Event.torch_save "best_peer_language_model.pth" ∈ coordChunkEvents fv e b ↔
      ((valLoss fv e : WithTop ℚ) < b) := by
  unfold coordChunkEvents
  split <;> rename_i h <;> simp [h]

/-- C1: across the epoch loop, the tracked best validation loss of the
coordinator is non-increasing from epoch to epoch, it is the value the loop
carries (starting from float(inf)), and the best-checkpoint file
best_peer_language_model.pth is written during an epoch exactly when that
validation loss of the epoch is strictly smaller than the validation loss of
every previous epoch. -/
theorem C1_best_checkpoint_policy (ft : Nat → ℚ × List ℚ) (fv : Nat → ℚ × ℚ × List ℚ)
    (n e : Nat) (s s1 : DistributedSamplerT) :
    bestSeq fv (n + 1) ≤ bestSeq fv n ∧
    (epochLoop (totalCollab ft fv) 0 (List.range n) s ⊤).2 =
      Except.ok ((List.range n).foldl set_epoch s, bestSeq fv n) ∧
    (Event.torch_save "best_peer_language_model.pth" ∈
        (epochChunk (totalCollab ft fv) 0 e s1 (bestSeq fv e)).1 ↔
      ∀ i < e, valLoss fv e < valLoss fv i) := by
  refine ⟨?_, ?_, ?_⟩
  · rw [show bestSeq fv (n + 1) = bestUpdate (bestSeq fv n) (valLoss fv n) from rfl,
      bestUpdate_eq_min]
    exact min_le_left _ _
  · rw [epochLoop_coord, foldl_bestUpdate_range]
  · rw [epochChunk_coord]
    exact (mem_save_coordChunk fv e (bestSeq fv e)).trans
      (lt_bestSeq_iff fv (valLoss fv e) e)

/-- C9: because the best validation loss starts as float(inf), the first
epoch of every run with at least one epoch writes the best-checkpoint file
on the coordinator, whatever finite validation loss validate returns. -/
theorem C9_first_epoch_saves_best (ft : Nat → ℚ × List ℚ) (fv : Nat → ℚ × ℚ × List ℚ)
    (args : ArgsNS) (hyp : Hyper) (hc : coerceArgs args = Except.ok hyp)
    (hN : 0 < hyp.num_epochs.toNat) :
    Event.torch_save "best_peer_language_model.pth" ∈
      (peer_main (totalCollab ft fv) 0 args).1 := by
  rw [peer_main_coerce_ok _ _ _ _ hc]
  unfold mainAfterCoerce
  rw [epochLoop_coord]
  have hrange : List.range hyp.num_epochs.toNat =
      0 :: List.range' 1 (hyp.num_epochs.toNat - 0 - 1) := by
    simpa using range_decomp 0 hyp.num_epochs.toNat hN
  rw [hrange]
  have h0 : Event.torch_save "best_peer_language_model.pth" ∈ coordChunkEvents fv 0 ⊤ :=
    (mem_save_coordChunk fv 0 ⊤).mpr (WithTop.coe_lt_top _)
  simp only [coordLoopEvents, List.mem_append, List.mem_cons]
  tauto

/-- C9 witness: on a concrete two-epoch run with constant zero losses, the
best checkpoint is written. -/
theorem C9_first_epoch_saves_best_witness :
    coerceArgs args10 = Except.ok hyp10 ∧ 0 < hyp10.num_epochs.toNat ∧
    Event.torch_save "best_peer_language_model.pth" ∈
      (peer_main (totalCollab ftZero fvZero) 0 args10).1 :=
  ⟨by decide, by decide,
    C9_first_epoch_saves_best ftZero fvZero args10 hyp10 (by decide) (by decide)⟩

/-- C2: on every exception-free coordinator run, the final checkpoint file
final_peer_language_model.pth is written exactly once, after all the epoch
events and just before the process-group teardown, unconditionally; with
num_epochs = 0 no plot file and no best-checkpoint file is produced, yet the
final checkpoint is still written. -/
theorem C2_final_checkpoint (ft : Nat → ℚ × List ℚ) (fv : Nat → ℚ × ℚ × List ℚ)
    (args : ArgsNS) (hyp : Hyper) (hc : coerceArgs args = Except.ok hyp) :
    (peer_main (totalCollab ft fv) 0 args).2 = none ∧
    (peer_main (totalCollab ft fv) 0 args).1 =
      (prologueEvents 0 ++ coordLoopEvents fv (List.range hyp.num_epochs.toNat) ⊤) ++
        [Event.torch_save "final_peer_language_model.pth", Event.destroy_process_group] ∧
    Event.torch_save "final_peer_language_model.pth" ∉
      prologueEvents 0 ++ coordLoopEvents fv (List.range hyp.num_epochs.toNat) ⊤ ∧
    (hyp.num_epochs.toNat = 0 →
      (peer_main (totalCollab ft fv) 0 args).1 =
        prologueEvents 0 ++
          [Event.torch_save "final_peer_language_model.pth", Event.destroy_process_group] ∧
      (∀ p, Event.savefig p ∉ (peer_main (totalCollab ft fv) 0 args).1) ∧
      Event.torch_save "best_peer_language_model.pth" ∉
        (peer_main (totalCollab ft fv) 0 args).1) := by
  rw [peer_main_coerce_ok _ _ _ _ hc]
  unfold mainAfterCoerce
  rw [epochLoop_coord]
  refine ⟨rfl, by simp, ?_, ?_⟩
  · rw [List.mem_append]
    rintro (h | h)
    · exact final_not_mem_prologue 0 h
    · have := epochLoop_no_final (totalCollab ft fv) 0 (List.range hyp.num_epochs.toNat)
        (build_resources hyp).train_sampler ⊤
      rw [epochLoop_coord] at this
      exact this h
  · intro hN
    rw [hN]
    simp only [List.range_zero, coordLoopEvents, List.nil_append, List.append_nil]
    refine ⟨by simp, ?_, ?_⟩
    · intro p
      simp [prologueEvents, startupEvents]
    · simp [prologueEvents, startupEvents]

/-- C2 witness: with num_epochs = 0 and constant losses, main writes the
final checkpoint and no plot or best-checkpoint file. -/
theorem C2_final_checkpoint_witness :
    coerceArgs argsZeroEpochs = Except.ok hypZero ∧ hypZero.num_epochs.toNat = 0 ∧
    (peer_main (totalCollab ftZero fvZero) 0 argsZeroEpochs).1 =
      prologueEvents 0 ++
        [Event.torch_save "final_peer_language_model.pth", Event.destroy_process_group] ∧
    Event.torch_save "best_peer_language_model.pth" ∉
      (peer_main (totalCollab ftZero fvZero) 0 argsZeroEpochs).1 :=
  ⟨by decide, by decide,
    ((C2_final_checkpoint ftZero fvZero argsZeroEpochs hypZero (by decide)).2.2.2 (by decide)).1,
    ((C2_final_checkpoint ftZero fvZero argsZeroEpochs hypZero (by decide)).2.2.2 (by decide)).2.2⟩

/-- C4: on an exception-free run, the coordinator writes exactly one plot
file per epoch, in order, named plots/epoch_(e+1)_losses.png for the 0-based
epoch index e; a process of nonzero local rank writes no plot file at all,
whatever its collaborators do. -/
theorem C4_one_plot_per_epoch (ft : Nat → ℚ × List ℚ) (fv : Nat → ℚ × ℚ × List ℚ)
    (args : ArgsNS) (hyp : Hyper) (hc : coerceArgs args = Except.ok hyp) :
    savefigPaths (peer_main (totalCollab ft fv) 0 args).1 =
      (List.range hyp.num_epochs.toNat).map plotPath ∧
    ∀ (c : Collaborators) (lr : Nat), lr ≠ 0 →
      savefigPaths (peer_main c lr args).1 = [] := by
  constructor
  · rw [peer_main_coerce_ok _ _ _ _ hc]
    unfold mainAfterCoerce
    rw [epochLoop_coord]
    simp only [savefigPaths_append]
    rw [savefigPaths_prologue]
    rw [show savefigPaths (coordLoopEvents fv (List.range hyp.num_epochs.toNat) ⊤) =
        (List.range hyp.num_epochs.toNat).map plotPath from
      savefigPaths_coordLoop fv (List.range hyp.num_epochs.toNat) ⊤]
    simp [savefigPaths, savefigPath]
  · intro c lr hlr
    rw [peer_main_coerce_ok _ _ _ _ hc]
    unfold mainAfterCoerce
    rcases hl : epochLoop c lr (List.range hyp.num_epochs.toNat)
        (build_resources hyp).train_sampler ⊤ with ⟨evs, out⟩
    have hevs : savefigPaths evs = [] := by
      rw [savefigPaths, List.filterMap_eq_nil_iff]
      intro ev hev
      have : ev ∈ (epochLoop c lr (List.range hyp.num_epochs.toNat)
          (build_resources hyp).train_sampler ⊤).1 := by rw [hl]; exact hev
      obtain ⟨e1, he1, h⟩ := epochLoop_noncoord_mem c lr hlr _ _ _ ev this
      rcases h with h | h <;> subst h <;> rfl
    rcases out with err | st <;> simp only []
    · rw [savefigPaths_append, savefigPaths_prologue, hevs]
      rfl
    · rw [if_neg hlr]
      simp only [savefigPaths_append, List.append_nil]
      rw [savefigPaths_prologue, hevs]
      rfl

/-- C4 witness: the concrete two-epoch run writes exactly the two plot
files, and a rank-one process writes none. -/
theorem C4_one_plot_per_epoch_witness :
    coerceArgs args10 = Except.ok hyp10 ∧
    savefigPaths (peer_main (totalCollab ftZero fvZero) 0 args10).1 =
      (List.range hyp10.num_epochs.toNat).map plotPath ∧
    (List.range hyp10.num_epochs.toNat).map plotPath =
      ["plots/epoch_1_losses.png", "plots/epoch_2_losses.png"] ∧
    (1 : Nat) ≠ 0 ∧
    savefigPaths (peer_main (totalCollab ftZero fvZero) 1 args10).1 = [] :=
  ⟨by decide,
    (C4_one_plot_per_epoch ftZero fvZero args10 hyp10 (by decide)).1,
    by decide, by decide,
    (C4_one_plot_per_epoch ftZero fvZero args10 hyp10 (by decide)).2
      (totalCollab ftZero fvZero) 1 (by decide)⟩

/-- C5: exactly one process, the coordinator identified by local rank 0,
performs validation, epoch reporting (logging and plotting) and
checkpointing: a process of nonzero local rank performs none of these
events on any run, while a coordinator run with at least one epoch creates
the plots directory, calls validate, writes a plot file and writes the
final checkpoint. -/
theorem C5_coordinator_exclusivity :
    (∀ (c : Collaborators) (args : ArgsNS) (lr : Nat), lr ≠ 0 →
      ((peer_main c lr args).1.countP coordOnly) = 0) ∧
    (∀ (ft : Nat → ℚ × List ℚ) (fv : Nat → ℚ × ℚ × List ℚ) (args : ArgsNS) (hyp : Hyper),
      coerceArgs args = Except.ok hyp → 0 < hyp.num_epochs.toNat →
      Event.makedirs "plots" ∈ (peer_main (totalCollab ft fv) 0 args).1 ∧
      Event.validate_call 0 ∈ (peer_main (totalCollab ft fv) 0 args).1 ∧
      Event.savefig (plotPath 0) ∈ (peer_main (totalCollab ft fv) 0 args).1 ∧
      Event.torch_save "final_peer_language_model.pth" ∈
        (peer_main (totalCollab ft fv) 0 args).1) := by
  constructor
  · intro c args lr hlr
    rcases hc : coerceArgs args with err | hyp
    · rw [peer_main_coerce_error c lr args err hc]
      simp [coordOnly]
    · rw [peer_main_coerce_ok _ _ _ _ hc]
      unfold mainAfterCoerce
      rcases hl : epochLoop c lr (List.range hyp.num_epochs.toNat)
          (build_resources hyp).train_sampler ⊤ with ⟨evs, out⟩
      have hevs : evs.countP coordOnly = 0 := by
        rw [List.countP_eq_zero]
        intro ev hev
        have : ev ∈ (epochLoop c lr (List.range hyp.num_epochs.toNat)
            (build_resources hyp).train_sampler ⊤).1 := by rw [hl]; exact hev
        obtain ⟨e1, he1, h⟩ := epochLoop_noncoord_mem c lr hlr _ _ _ ev this
        rcases h with h | h <;> subst h <;> simp [coordOnly]
      rcases out with err | st <;> simp only []
      · rw [List.countP_append, countP_coordOnly_prologue lr hlr, hevs]
      · rw [if_neg hlr]
        simp only [List.countP_append, countP_coordOnly_prologue lr hlr, hevs]
        simp [coordOnly]
  · intro ft fv args hyp hc hN
    rw [peer_main_coerce_ok _ _ _ _ hc]
    unfold mainAfterCoerce
    rw [epochLoop_coord]
    have hrange : List.range hyp.num_epochs.toNat =
        0 :: List.range' 1 (hyp.num_epochs.toNat - 0 - 1) := by
      simpa using range_decomp 0 hyp.num_epochs.toNat hN
    rw [hrange]
    simp only [coordLoopEvents, coordChunkEvents, List.mem_append, List.mem_cons,
      prologueEvents, startupEvents, reduceIte]
    refine ⟨by simp, by tauto, by tauto, by simp⟩

/-- C5 witness: a concrete rank-one process performs no coordinator-only
event, while the concrete coordinator run calls validate. -/
theorem C5_coordinator_exclusivity_witness :
    (1 : Nat) ≠ 0 ∧
    (peer_main (totalCollab ftZero fvZero) 1 args10).1.countP coordOnly = 0 ∧
    Event.validate_call 0 ∈ (peer_main (totalCollab ftZero fvZero) 0 args10).1 :=
  ⟨by decide,
    C5_coordinator_exclusivity.1 (totalCollab ftZero fvZero) args10 1 (by decide),
    (C5_coordinator_exclusivity.2 ftZero fvZero args10 hyp10 (by decide) (by decide)).2.1⟩

/-- C6: in every loop iteration the first performed action is the re-seeding
of the train sampler with the current epoch index, the train collaborator is
invoked afterwards in the same iteration, and at every train invocation of
any run of main the epoch stored in the sampler equals the epoch of the
iteration. -/
theorem C6_sampler_reseeded_before_train (c : Collaborators) (lr : Nat) :
    (∀ (e : Nat) (s : DistributedSamplerT) (b : WithTop ℚ),
      (epochChunk c lr e s b).1.head? = some (Event.set_epoch_call e) ∧
      Event.train_call e e ∈ (epochChunk c lr e s b).1.tail) ∧
    (∀ (args : ArgsNS) (e se : Nat),
      Event.train_call e se ∈ (peer_main c lr args).1 → se = e) := by
  constructor
  · exact fun e s b => epochChunk_head_tail c lr e s b
  · intro args e se hev
    rcases hc : coerceArgs args with err | hyp
    · rw [peer_main_coerce_error c lr args err hc] at hev
      simp at hev
    · rw [peer_main_coerce_ok _ _ _ _ hc] at hev
      unfold mainAfterCoerce at hev
      rcases hl : epochLoop c lr (List.range hyp.num_epochs.toNat)
          (build_resources hyp).train_sampler ⊤ with ⟨evs, out⟩
      rw [hl] at hev
      have hloopmem : Event.train_call e se ∈ evs → se = e := by
        intro hm
        have hm1 : Event.train_call e se ∈ (epochLoop c lr
            (List.range hyp.num_epochs.toNat) (build_resources hyp).train_sampler ⊤).1 := by
          rw [hl]; exact hm
        obtain ⟨e1, he1, h⟩ := epochLoop_mem_cases c lr _ _ _ _ hm1
        rcases h with h | h | h | h | h | h | h | h <;> first
          | (injection h with h1 h2; subst h1; exact h2.symm ▸ rfl)
          | simp at h
      rcases out with err | st <;> simp only [List.mem_append] at hev
      · rcases hev with hev | hev
        · exact absurd hev (train_call_not_mem_prologue lr e se)
        · exact hloopmem hev
      · rcases hev with ((hev | hev) | hev) | hev
        · exact absurd hev (train_call_not_mem_prologue lr e se)
        · exact hloopmem hev
        · revert hev
          split <;> simp
        · simp at hev

/-- C6 witness: on a concrete run, the first iteration of the chunk starts
with the sampler re-seed and contains the matching train call, and a
concrete train call in a full run carries the matching sampler epoch. -/
theorem C6_sampler_reseeded_before_train_witness :
    (epochChunk (totalCollab ftZero fvZero) 0 3 (DistributedSamplerNew { dataset := some "pile", split := "train" }) ⊤).1.head? =
      some (Event.set_epoch_call 3) ∧
    Event.train_call 1 1 ∈ (peer_main (totalCollab ftZero fvZero) 0 args10).1 ∧
    (1 : Nat) = 1 :=
  ⟨((C6_sampler_reseeded_before_train (totalCollab ftZero fvZero) 0).1 3
      (DistributedSamplerNew { dataset := some "pile", split := "train" }) ⊤).1,
    by decide,
    (C6_sampler_reseeded_before_train (totalCollab ftZero fvZero) 0).2 args10 1 1 (by decide)⟩

lemma epochLoop_range_error (c : Collaborators) (lr : Nat) (err : PyError)
    (N e : Nat) (he : e < N)
    (hok : ∀ i < e, (∃ x, c.train i = Except.ok x) ∧
      (lr = 0 → ∃ y, c.validate i = Except.ok y))
    (hfail : ∀ s1 b1, (epochChunk c lr e s1 b1).2 = Except.error err) :
    ∀ (s : DistributedSamplerT) (b : WithTop ℚ),
      (epochLoop c lr (List.range N) s b).2 = Except.error err := by
  intro s b
  rw [range_decomp e N he]
  exact epochLoop_error c lr err (List.range e) e _ s b
    (fun i hi => hok i (List.mem_range.mp hi)) hfail

lemma peer_main_loop_error (c : Collaborators) (lr : Nat) (args : ArgsNS)
    (hyp : Hyper) (err : PyError) (hc : coerceArgs args = Except.ok hyp)
    (hfail : (epochLoop c lr (List.range hyp.num_epochs.toNat)
      (build_resources hyp).train_sampler ⊤).2 = Except.error err) :
    (peer_main c lr args).2 = some err ∧
    Event.destroy_process_group ∉ (peer_main c lr args).1 ∧
    Event.torch_save "final_peer_language_model.pth" ∉ (peer_main c lr args).1 := by
  rw [peer_main_coerce_ok _ _ _ _ hc]
  unfold mainAfterCoerce
  rcases hl : epochLoop c lr (List.range hyp.num_epochs.toNat)
      (build_resources hyp).train_sampler ⊤ with ⟨evs, out⟩
  rw [hl] at hfail
  simp only [] at hfail
  subst hfail
  simp only [List.mem_append, not_or]
  refine ⟨by trivial, ?_, ?_⟩
  · refine ⟨destroy_not_mem_prologue lr, ?_⟩
    have := epochLoop_no_destroy c lr (List.range hyp.num_epochs.toNat)
      (build_resources hyp).train_sampler ⊤
    rw [hl] at this
    exact this
  · refine ⟨final_not_mem_prologue lr, ?_⟩
    have := epochLoop_no_final c lr (List.range hyp.num_epochs.toNat)
      (build_resources hyp).train_sampler ⊤
    rw [hl] at this
    exact this

/-- C8: an exception raised by the train or the validate collaborator is not
caught by the orchestration layer: main ends with that very exception, the
final checkpoint is never written and the process group is never destroyed;
there is no retry, recovery or partial-failure path. -/
theorem C8_collaborator_exception_propagates (c : Collaborators) (args : ArgsNS)
    (hyp : Hyper) (e : Nat) (err : PyError)
    (hc : coerceArgs args = Except.ok hyp)
    (he : e < hyp.num_epochs.toNat)
    (hprev : ∀ i < e, (∃ x, c.train i = Except.ok x) ∧ (∃ y, c.validate i = Except.ok y)) :
    (c.train e = Except.error err →
      ∀ lr, (peer_main c lr args).2 = some err ∧
        Event.destroy_process_group ∉ (peer_main c lr args).1 ∧
        Event.torch_save "final_peer_language_model.pth" ∉ (peer_main c lr args).1) ∧
    (∀ x, c.train e = Except.ok x → c.validate e = Except.error err →
      (peer_main c 0 args).2 = some err ∧
      Event.destroy_process_group ∉ (peer_main c 0 args).1 ∧
      Event.torch_save "final_peer_language_model.pth" ∉ (peer_main c 0 args).1) := by
  constructor
  · intro ht lr
    refine peer_main_loop_error c lr args hyp err hc ?_
    exact epochLoop_range_error c lr err hyp.num_epochs.toNat e he
      (fun i hi => ⟨(hprev i hi).1, fun _ => (hprev i hi).2⟩)
      (fun s1 b1 => epochChunk_train_error c lr e err ht s1 b1) _ _
  · intro x ht hv
    refine peer_main_loop_error c 0 args hyp err hc ?_
    exact epochLoop_range_error c 0 err hyp.num_epochs.toNat e he
      (fun i hi => ⟨(hprev i hi).1, fun _ => (hprev i hi).2⟩)
      (fun s1 b1 => epochChunk_validate_error c e err x ht hv s1 b1) _ _

/-- C8 witness: concrete collaborators that raise at epoch 1 after a clean
epoch 0, for both the train-raises and the validate-raises case. -/
theorem C8_collaborator_exception_propagates_witness :
    coerceArgs args10 = Except.ok hyp10 ∧ 1 < hyp10.num_epochs.toNat ∧
    (peer_main cTrainFail 0 args10).2 = some (PyError.exception "CUDA out of memory") ∧
    Event.destroy_process_group ∉ (peer_main cTrainFail 0 args10).1 ∧
    (peer_main cValFail 0 args10).2 = some (PyError.exception "validate failed") ∧
    Event.torch_save "final_peer_language_model.pth" ∉ (peer_main cValFail 0 args10).1 :=
  ⟨by decide, by decide,
    ((C8_collaborator_exception_propagates cTrainFail args10 hyp10 1
        (PyError.exception "CUDA out of memory") (by decide) (by decide)
        (fun i hi => ⟨⟨(1, [1]), by interval_cases i <;> rfl⟩,
          ⟨(1, 1, []), rfl⟩⟩)).1 (by decide) 0).1,
    ((C8_collaborator_exception_propagates cTrainFail args10 hyp10 1
        (PyError.exception "CUDA out of memory") (by decide) (by decide)
        (fun i hi => ⟨⟨(1, [1]), by interval_cases i <;> rfl⟩,
          ⟨(1, 1, []), rfl⟩⟩)).1 (by decide) 0).2.1,
    ((C8_collaborator_exception_propagates cValFail args10 hyp10 1
        (PyError.exception "validate failed") (by decide) (by decide)
        (fun i hi => ⟨⟨(1, [1]), rfl⟩,
          ⟨(1, 1, []), by interval_cases i <;> rfl⟩⟩)).2 (1, [1]) (by decide) (by decide)).1,
    ((C8_collaborator_exception_propagates cValFail args10 hyp10 1
        (PyError.exception "validate failed") (by decide) (by decide)
        (fun i hi => ⟨⟨(1, [1]), rfl⟩,
          ⟨(1, 1, []), by interval_cases i <;> rfl⟩⟩)).2 (1, [1]) (by decide) (by decide)).2.2⟩
